import Mathlib

/-!
Shallow embedding of the `TestimonialsCarousel` component of
`src/js/main.js` (class `TestimonialsCarousel`, lines 367-501, plus the
global wrapper functions `changeTestimonial` / `currentTestimonial`,
lines 504-518).

Modelling decisions, each tied to the JavaScript source:

* JavaScript index arithmetic is done on `Number`; the only non-integer
  value reachable here is `NaN`, produced by `x % 0` when the card list
  is empty.  `JsNum` is an integer extended with `nan`; `%` on numbers
  is truncated remainder (`Int.tmod`) and every comparison with `NaN`
  is `false`, exactly as in JavaScript.
* `cards` / `dots` are the NodeLists queried in the constructor; we keep
  only what the component reads and writes about them: their length and
  the presence of the `active` class, i.e. a `List Bool` per collection.
* `setInterval` / `clearInterval` are modelled with ghost state: every
  `setInterval` call returns a fresh positive handle (`nextHandle`),
  appends it to the multiset `live` of still-scheduled intervals and
  stores it in `autoplayTimer`; `clearInterval h` removes `h` from
  `live`.  Handles start at 1 because browser interval ids are positive,
  which makes the JavaScript truthiness test `if (this.autoplayTimer)`
  coincide with `Option.isSome`.
* `renders` is a ghost trace recording each execution of the DOM
  mutation section of `showTestimonial` (everything after its range
  guard) together with the index argument.
* The constructor's `this.container` null-check in `init` is dropped:
  we model a carousel whose container element exists; no claim depends
  on a missing container.
-/

/-- A JavaScript number as used by the carousel: an integer or `NaN`. -/
inductive JsNum where
  | nan : JsNum
  | int : Int → JsNum
deriving DecidableEq, Repr

namespace JsNum

/-- Addition of an integer constant; `NaN + k = NaN`. -/
def add : JsNum → Int → JsNum
  | .nan, _ => .nan
  | .int i, k => .int (i + k)

/-- JavaScript `x % n` for a `Nat` divisor (a NodeList length):
truncated remainder; `NaN` when the divisor is `0` or `x` is `NaN`. -/
def modLen : JsNum → Nat → JsNum
  | .nan, _ => .nan
  | .int i, n => if n = 0 then .nan else .int (Int.tmod i n)

/-- JavaScript `x < k`: `false` whenever `x` is `NaN`. -/
def ltB : JsNum → Int → Bool
  | .nan, _ => false
  | .int i, k => decide (i < k)

/-- JavaScript `x >= k`: `false` whenever `x` is `NaN`. -/
def geB : JsNum → Int → Bool
  | .nan, _ => false
  | .int i, k => decide (k ≤ i)

end JsNum

/-- State of one `TestimonialsCarousel` instance (fields of `this`,
plus the ghost timer/render bookkeeping described above). -/
structure Carousel where
  /-- `active`-class flags of `this.cards`. -/
  cards : List Bool
  /-- `active`-class flags of `this.dots`. -/
  dots : List Bool
  /-- `this.currentIndex`. -/
  currentIndex : JsNum
  /-- `this.isAutoplay` (from `CONFIG.testimonialAutoplay`). -/
  isAutoplay : Bool
  /-- `this.autoplayTimer` (`null` = `none`). -/
  autoplayTimer : Option Nat
  /-- Ghost: handles of intervals that are scheduled and not cleared. -/
  live : List Nat
  /-- Ghost: next fresh interval handle (starts at 1). -/
  nextHandle : Nat
  /-- Ghost: trace of executed render (DOM mutation) sections. -/
  renders : List JsNum
deriving DecidableEq, Repr

/-- The body of the two `forEach` loops plus the two guarded
`classList.add` calls of `showTestimonial`: clear every `active` flag,
then set the flag at `index` when `l[index]` exists (a `NaN` or
out-of-range subscript yields `undefined`, which is falsy). -/
def activateOnly (l : List Bool) (index : JsNum) : List Bool :=
  let cleared := l.map fun _ => false
  match index with
  | .nan => cleared
  | .int i =>
      if 0 ≤ i ∧ i < (cleared.length : Int) then cleared.set i.toNat true
      else cleared

/-- `showTestimonial(index)` (main.js 440-463). -/
def showTestimonial (s : Carousel) (index : JsNum) : Carousel :=
  if index.ltB 0 || index.geB s.cards.length then s
  else
    { s with
      cards := activateOnly s.cards index
      dots := activateOnly s.dots index
      currentIndex := index
      renders := s.renders ++ [index] }

/-- `startAutoplay()` (main.js 482-488): no cancellation, just
`this.autoplayTimer = setInterval(...)`. -/
def startAutoplay (s : Carousel) : Carousel :=
  if !s.isAutoplay then s
  else
    { s with
      autoplayTimer := some s.nextHandle
      live := s.live ++ [s.nextHandle]
      nextHandle := s.nextHandle + 1 }

/-- `pauseAutoplay()` (main.js 490-495): clear the tracked interval if
the handle is truthy, then null the field. -/
def pauseAutoplay (s : Carousel) : Carousel :=
  match s.autoplayTimer with
  | some h => { s with live := s.live.erase h, autoplayTimer := none }
  | none => s

/-- `resetAutoplay()` (main.js 497-500): pause, then start. -/
def resetAutoplay (s : Carousel) : Carousel :=
  startAutoplay (pauseAutoplay s)

/-- `nextTestimonial()` (main.js 465-469). -/
def nextTestimonial (s : Carousel) : Carousel :=
  let nextIndex := (s.currentIndex.add 1).modLen s.cards.length
  resetAutoplay (showTestimonial s nextIndex)

/-- `previousTestimonial()` (main.js 471-475): index
`(currentIndex - 1 + cards.length) % cards.length`. -/
def previousTestimonial (s : Carousel) : Carousel :=
  let prevIndex := ((s.currentIndex.add (-1)).add s.cards.length).modLen s.cards.length
  resetAutoplay (showTestimonial s prevIndex)

/-- `goToTestimonial(index)` (main.js 477-480).  Note that
`resetAutoplay` runs whether or not `showTestimonial` accepted the
index. -/
def goToTestimonial (s : Carousel) (index : Int) : Carousel :=
  resetAutoplay (showTestimonial s (.int index))

/-- `handleSwipe(startX, endX)` (main.js 427-438), threshold 50. -/
def handleSwipe (s : Carousel) (startX endX : Int) : Carousel :=
  let threshold : Int := 50
  let diff := startX - endX
  if threshold < |diff| then
    if 0 < diff then nextTestimonial s else previousTestimonial s
  else s

/-- The constructor's state initialisation (main.js 368-380):
`currentIndex = 0`, `isAutoplay = CONFIG.testimonialAutoplay`,
`autoplayTimer = null`; the two NodeLists have the lengths found in the
document, initially without `active` classes. -/
def mkCarousel (nCards nDots : Nat) (autoplay : Bool) : Carousel :=
  { cards := List.replicate nCards false
    dots := List.replicate nDots false
    currentIndex := .int 0
    isAutoplay := autoplay
    autoplayTimer := none
    live := []
    nextHandle := 1
    renders := [] }

/-- `init()` (main.js 382-388): early return when there are no cards,
otherwise attach listeners (stateless here), `startAutoplay()`, then
`showTestimonial(0)`. -/
def init (s : Carousel) : Carousel :=
  if s.cards.length = 0 then s
  else showTestimonial (startAutoplay s) (.int 0)

/-- Constructor followed by `init()`. -/
def initState (nCards nDots : Nat) (autoplay : Bool) : Carousel :=
  init (mkCarousel nCards nDots autoplay)

/-- External events the instance can receive after construction:
prev/next button clicks, a dot click or `currentTestimonial` call
(`goTo` with an arbitrary integer), a completed touch swipe,
`mouseenter` (pause), `mouseleave` (start), and the firing of a
scheduled interval, whose callback is `() => this.nextTestimonial()`. -/
inductive Op where
  | next
  | prev
  | goTo (v : Int)
  | swipe (startX endX : Int)
  | hoverIn
  | hoverOut
  | tick
deriving DecidableEq, Repr

/-- Effect of one event on the carousel state.  `tick` is the interval
callback; applying it without checking `live` over-approximates the
reachable states (a tick only actually fires while some interval is
live), which is sound for the invariants proved below. -/
def applyOp (s : Carousel) : Op → Carousel
  | .next => nextTestimonial s
  | .prev => previousTestimonial s
  | .goTo v => goToTestimonial s v
  | .swipe startX endX => handleSwipe s startX endX
  | .hoverIn => pauseAutoplay s
  | .hoverOut => startAutoplay s
  | .tick => nextTestimonial s

/-- A whole event sequence. -/
def applyOps (s : Carousel) (ops : List Op) : Carousel :=
  ops.foldl applyOp s

/-- `changeTestimonial(direction)` (main.js 504-512) acting on the
optional registered global instance (`window.testimonialsCarousel`). -/
def changeTestimonial (g : Option Carousel) (direction : Int) : Option Carousel :=
  match g with
  | none => none
  | some c => some (if 0 < direction then nextTestimonial c else previousTestimonial c)

/-- `currentTestimonial(index)` (main.js 514-518). -/
def currentTestimonial (g : Option Carousel) (index : Int) : Option Carousel :=
  match g with
  | none => none
  | some c => some (goToTestimonial c (index - 1))

/-! ### Basic lemmas about the embedded operations -/

theorem length_activateOnly (l : List Bool) (x : JsNum) :
    (activateOnly l x).length = l.length := by
  unfold activateOnly
  cases x with
  | nan => simp
  | int i => dsimp only; split <;> simp

theorem showTestimonial_inRange (s : Carousel) (i : Int)
    (h0 : 0 ≤ i) (h1 : i < (s.cards.length : Int)) :
    showTestimonial s (.int i) =
      { s with
        cards := activateOnly s.cards (.int i)
        dots := activateOnly s.dots (.int i)
        currentIndex := .int i
        renders := s.renders ++ [.int i] } := by
  unfold showTestimonial
  rw [if_neg]
  simp only [JsNum.ltB, JsNum.geB, Bool.or_eq_true, decide_eq_true_eq, not_or, not_lt, not_le]
  omega

theorem showTestimonial_outRange (s : Carousel) (i : Int)
    (h : i < 0 ∨ (s.cards.length : Int) ≤ i) :
    showTestimonial s (.int i) = s := by
  unfold showTestimonial
  rw [if_pos]
  simp only [JsNum.ltB, JsNum.geB, Bool.or_eq_true, decide_eq_true_eq]
  omega

theorem pauseAutoplay_proj (s : Carousel) :
    (pauseAutoplay s).currentIndex = s.currentIndex ∧
    (pauseAutoplay s).cards = s.cards ∧
    (pauseAutoplay s).dots = s.dots ∧
    (pauseAutoplay s).renders = s.renders ∧
    (pauseAutoplay s).isAutoplay = s.isAutoplay := by
  unfold pauseAutoplay
  cases h : s.autoplayTimer <;> simp

theorem startAutoplay_proj (s : Carousel) :
    (startAutoplay s).currentIndex = s.currentIndex ∧
    (startAutoplay s).cards = s.cards ∧
    (startAutoplay s).dots = s.dots ∧
    (startAutoplay s).renders = s.renders ∧
    (startAutoplay s).isAutoplay = s.isAutoplay := by
  unfold startAutoplay
  split <;> simp

theorem resetAutoplay_proj (s : Carousel) :
    (resetAutoplay s).currentIndex = s.currentIndex ∧
    (resetAutoplay s).cards = s.cards ∧
    (resetAutoplay s).dots = s.dots ∧
    (resetAutoplay s).renders = s.renders ∧
    (resetAutoplay s).isAutoplay = s.isAutoplay := by
  unfold resetAutoplay
  obtain ⟨h1, h2, h3, h4, h5⟩ := startAutoplay_proj (pauseAutoplay s)
  obtain ⟨g1, g2, g3, g4, g5⟩ := pauseAutoplay_proj s
  exact ⟨h1.trans g1, h2.trans g2, h3.trans g3, h4.trans g4, h5.trans g5⟩

theorem showTestimonial_lengths (s : Carousel) (x : JsNum) :
    (showTestimonial s x).cards.length = s.cards.length ∧
    (showTestimonial s x).dots.length = s.dots.length := by
  unfold showTestimonial
  split
  · exact ⟨rfl, rfl⟩
  · exact ⟨length_activateOnly _ _, length_activateOnly _ _⟩

theorem applyOp_lengths (s : Carousel) (op : Op) :
    (applyOp s op).cards.length = s.cards.length ∧
    (applyOp s op).dots.length = s.dots.length := by
  have show_len := showTestimonial_lengths
  have reset_len : ∀ t : Carousel,
      (resetAutoplay t).cards.length = t.cards.length ∧
      (resetAutoplay t).dots.length = t.dots.length := by
    intro t
    obtain ⟨-, h2, h3, -, -⟩ := resetAutoplay_proj t
    exact ⟨by rw [h2], by rw [h3]⟩
  cases op with
  | next =>
      unfold applyOp nextTestimonial
      constructor
      · rw [(reset_len _).1, (show_len _ _).1]
      · rw [(reset_len _).2, (show_len _ _).2]
  | prev =>
      unfold applyOp previousTestimonial
      constructor
      · rw [(reset_len _).1, (show_len _ _).1]
      · rw [(reset_len _).2, (show_len _ _).2]
  | goTo v =>
      unfold applyOp goToTestimonial
      constructor
      · rw [(reset_len _).1, (show_len _ _).1]
      · rw [(reset_len _).2, (show_len _ _).2]
  | swipe a b =>
      unfold applyOp handleSwipe
      dsimp only
      split
      · split
        · unfold nextTestimonial
          constructor
          · rw [(reset_len _).1, (show_len _ _).1]
          · rw [(reset_len _).2, (show_len _ _).2]
        · unfold previousTestimonial
          constructor
          · rw [(reset_len _).1, (show_len _ _).1]
          · rw [(reset_len _).2, (show_len _ _).2]
      · exact ⟨rfl, rfl⟩
  | hoverIn =>
      unfold applyOp
      obtain ⟨-, h2, h3, -, -⟩ := pauseAutoplay_proj s
      exact ⟨by rw [h2], by rw [h3]⟩
  | hoverOut =>
      unfold applyOp
      obtain ⟨-, h2, h3, -, -⟩ := startAutoplay_proj s
      exact ⟨by rw [h2], by rw [h3]⟩
  | tick =>
      unfold applyOp nextTestimonial
      constructor
      · rw [(reset_len _).1, (show_len _ _).1]
      · rw [(reset_len _).2, (show_len _ _).2]

theorem applyOps_lengths (ops : List Op) (s : Carousel) :
    (applyOps s ops).cards.length = s.cards.length ∧
    (applyOps s ops).dots.length = s.dots.length := by
  induction ops generalizing s with
  | nil => exact ⟨rfl, rfl⟩
  | cons op tl ih =>
      have h1 := applyOp_lengths s op
      have h2 := ih (applyOp s op)
      exact ⟨h2.1.trans h1.1, h2.2.trans h1.2⟩

/-- Truncated remainder agrees with mathematical mod on the
non-negative dividends the carousel produces, and lands in `[0, N)`. -/
theorem modLen_nonneg (i : Int) (N : Nat) (h0 : 0 ≤ i) (hN : 0 < N) :
    JsNum.modLen (.int i) N = .int (i % (N : Int)) ∧
    0 ≤ i % (N : Int) ∧ i % (N : Int) < (N : Int) := by
  have hN0 : (N : Int) ≠ 0 := by exact_mod_cast Nat.pos_iff_ne_zero.mp hN
  have hNpos : (0 : Int) < (N : Int) := by exact_mod_cast hN
  refine ⟨?_, Int.emod_nonneg i hN0, Int.emod_lt_of_pos i hNpos⟩
  simp only [JsNum.modLen]
  rw [if_neg (Nat.pos_iff_ne_zero.mp hN)]
  rw [Int.tmod_eq_emod h0 (by positivity)]

theorem nextTestimonial_spec (s : Carousel) (i : Int)
    (hcur : s.currentIndex = .int i) (h0 : 0 ≤ i) (hN : 0 < s.cards.length) :
    (nextTestimonial s).currentIndex = .int ((i + 1) % (s.cards.length : Int)) ∧
    (nextTestimonial s).renders = s.renders ++ [.int ((i + 1) % (s.cards.length : Int))] := by
  have h1 : (0 : Int) ≤ i + 1 := by omega
  obtain ⟨hmod, hlo, hhi⟩ := modLen_nonneg (i + 1) s.cards.length h1 hN
  have hshow := showTestimonial_inRange s ((i + 1) % (s.cards.length : Int)) hlo hhi
  unfold nextTestimonial
  rw [hcur]
  show (resetAutoplay (showTestimonial s (JsNum.modLen (.int (i + 1)) s.cards.length))).currentIndex = _ ∧
    (resetAutoplay (showTestimonial s (JsNum.modLen (.int (i + 1)) s.cards.length))).renders = _
  rw [hmod, hshow]
  obtain ⟨r1, -, -, r4, -⟩ := resetAutoplay_proj
    { s with
      cards := activateOnly s.cards (.int ((i + 1) % (s.cards.length : Int)))
      dots := activateOnly s.dots (.int ((i + 1) % (s.cards.length : Int)))
      currentIndex := .int ((i + 1) % (s.cards.length : Int))
      renders := s.renders ++ [.int ((i + 1) % (s.cards.length : Int))] }
  exact ⟨r1, r4⟩

theorem previousTestimonial_spec (s : Carousel) (i : Int)
    (hcur : s.currentIndex = .int i) (h0 : 0 ≤ i) (hN : 0 < s.cards.length) :
    (previousTestimonial s).currentIndex =
      .int ((i - 1 + s.cards.length) % (s.cards.length : Int)) ∧
    (previousTestimonial s).renders =
      s.renders ++ [.int ((i - 1 + s.cards.length) % (s.cards.length : Int))] := by
  have hNpos : (0 : Int) < (s.cards.length : Int) := by exact_mod_cast hN
  have h1 : (0 : Int) ≤ i - 1 + s.cards.length := by omega
  obtain ⟨hmod, hlo, hhi⟩ := modLen_nonneg (i - 1 + s.cards.length) s.cards.length h1 hN
  have hshow := showTestimonial_inRange s ((i - 1 + s.cards.length) % (s.cards.length : Int)) hlo hhi
  unfold previousTestimonial
  rw [hcur]
  show (resetAutoplay (showTestimonial s
      (JsNum.modLen (.int (i + -1 + s.cards.length)) s.cards.length))).currentIndex = _ ∧
    (resetAutoplay (showTestimonial s
      (JsNum.modLen (.int (i + -1 + s.cards.length)) s.cards.length))).renders = _
  have harg : i + -1 + (s.cards.length : Int) = i - 1 + s.cards.length := by ring
  rw [harg, hmod, hshow]
  obtain ⟨r1, -, -, r4, -⟩ := resetAutoplay_proj _
  exact ⟨r1, r4⟩

/-- The current index is a genuine integer inside `[0, N)`. -/
def IndexInv (N : Nat) (s : Carousel) : Prop :=
  ∃ i : Int, s.currentIndex = .int i ∧ 0 ≤ i ∧ i < (N : Int)

theorem applyOp_indexInv (s : Carousel) (op : Op)
    (hlen : s.cards.length ≠ 0) (hinv : IndexInv s.cards.length s) :
    IndexInv s.cards.length (applyOp s op) := by
  obtain ⟨i, hcur, h0, hi⟩ := hinv
  have hN : 0 < s.cards.length := Nat.pos_of_ne_zero hlen
  have hnext : IndexInv s.cards.length (nextTestimonial s) := by
    obtain ⟨hidx, -⟩ := nextTestimonial_spec s i hcur h0 hN
    obtain ⟨-, -, hhi⟩ := modLen_nonneg (i + 1) s.cards.length (by omega) hN
    obtain ⟨hlo, -⟩ := modLen_nonneg (i + 1) s.cards.length (by omega) hN |>.2
    exact ⟨_, hidx, hlo, hhi⟩
  have hprev : IndexInv s.cards.length (previousTestimonial s) := by
    obtain ⟨hidx, -⟩ := previousTestimonial_spec s i hcur h0 hN
    obtain ⟨-, hlo, hhi⟩ := modLen_nonneg (i - 1 + s.cards.length) s.cards.length (by omega) hN
    exact ⟨_, hidx, hlo, hhi⟩
  cases op with
  | next => exact hnext
  | prev => exact hprev
  | goTo v =>
      show IndexInv s.cards.length (goToTestimonial s v)
      unfold goToTestimonial
      by_cases hv : 0 ≤ v ∧ v < (s.cards.length : Int)
      · rw [showTestimonial_inRange s v hv.1 hv.2]
        obtain ⟨r1, -, -, -, -⟩ := resetAutoplay_proj _
        exact ⟨v, r1, hv.1, hv.2⟩
      · rw [showTestimonial_outRange s v (by omega)]
        obtain ⟨r1, -, -, -, -⟩ := resetAutoplay_proj s
        exact ⟨i, r1.trans hcur, h0, hi⟩
  | swipe a b =>
      show IndexInv s.cards.length (handleSwipe s a b)
      unfold handleSwipe
      dsimp only
      split
      · split
        · exact hnext
        · exact hprev
      · exact ⟨i, hcur, h0, hi⟩
  | hoverIn =>
      obtain ⟨r1, -, -, -, -⟩ := pauseAutoplay_proj s
      exact ⟨i, r1.trans hcur, h0, hi⟩
  | hoverOut =>
      obtain ⟨r1, -, -, -, -⟩ := startAutoplay_proj s
      exact ⟨i, r1.trans hcur, h0, hi⟩
  | tick => exact hnext

theorem applyOps_indexInv (ops : List Op) (s : Carousel)
    (hlen : s.cards.length ≠ 0) (hinv : IndexInv s.cards.length s) :
    IndexInv s.cards.length (applyOps s ops) := by
  induction ops generalizing s with
  | nil => exact hinv
  | cons op tl ih =>
      have hstep := applyOp_indexInv s op hlen hinv
      have hlen1 := (applyOp_lengths s op).1
      have := ih (applyOp s op) (by rw [hlen1]; exact hlen) (by rw [hlen1]; exact hstep)
      show IndexInv s.cards.length (applyOps (applyOp s op) tl)
      rw [hlen1] at this
      exact this

theorem initState_indexInv (N nD : Nat) (a : Bool) (hN : N ≠ 0) :
    IndexInv N (initState N nD a) ∧ (initState N nD a).cards.length = N := by
  have hmk : (mkCarousel N nD a).cards.length = N := by
    simp [mkCarousel]
  unfold initState init
  rw [hmk, if_neg hN]
  have hstartlen : (startAutoplay (mkCarousel N nD a)).cards.length = N := by
    rw [(startAutoplay_proj (mkCarousel N nD a)).2.1, hmk]
  have hlt : (0 : Int) < ((startAutoplay (mkCarousel N nD a)).cards.length : Int) := by
    rw [hstartlen]; exact_mod_cast Nat.pos_of_ne_zero hN
  rw [showTestimonial_inRange _ 0 le_rfl hlt]
  constructor
  · exact ⟨0, rfl, le_rfl, by exact_mod_cast Nat.pos_of_ne_zero hN⟩
  · show (activateOnly (startAutoplay (mkCarousel N nD a)).cards (JsNum.int 0)).length = N
    rw [length_activateOnly]
    exact hstartlen

/-! ### Exactly-one-active lemmas -/

theorem count_replicate_false_set (n k : Nat) (hk : k < n) :
    ((List.replicate n false).set k true).count true = 1 := by
  induction n generalizing k with
  | zero => omega
  | succ m ih =>
      cases k with
      | zero =>
          simp [List.replicate_succ, List.count_cons, List.count_replicate]
      | succ j =>
          have hj : j < m := by omega
          simp only [List.replicate_succ, List.set_cons_succ, List.count_cons]
          rw [ih j hj]
          simp

theorem getD_replicate_false_set (n k : Nat) (hk : k < n) :
    ((List.replicate n false).set k true).getD k false = true := by
  induction n generalizing k with
  | zero => omega
  | succ m ih =>
      cases k with
      | zero => simp [List.replicate_succ]
      | succ j =>
          have hj : j < m := by omega
          simpa [List.replicate_succ] using ih j hj

theorem getD_replicate_false (n j : Nat) :
    (List.replicate n false).getD j false = false := by
  induction n generalizing j with
  | zero => simp
  | succ m ih => cases j <;> simp [List.replicate_succ, ih]

theorem getD_replicate_false_set_ne (n k j : Nat) (hj : j < n) (hne : j ≠ k) :
    ((List.replicate n false).set k true).getD j false = false := by
  induction n generalizing k j with
  | zero => omega
  | succ m ih =>
      cases k with
      | zero =>
          cases j with
          | zero => omega
          | succ j' => simp [List.replicate_succ, getD_replicate_false]
      | succ k' =>
          cases j with
          | zero => simp [List.replicate_succ]
          | succ j' =>
              have := ih k' j' (by omega) (by omega)
              simpa [List.replicate_succ] using this

theorem activateOnly_int_eq (l : List Bool) (i : Int)
    (h0 : 0 ≤ i) (hi : i < (l.length : Int)) :
    activateOnly l (.int i) = (List.replicate l.length false).set i.toNat true := by
  simp only [activateOnly, List.map_const']
  rw [if_pos]
  simp only [List.length_replicate]
  exact ⟨h0, hi⟩

/-! ### Ghost-state helper lemmas -/

theorem showTestimonial_ghost_proj (s : Carousel) (x : JsNum) :
    (showTestimonial s x).autoplayTimer = s.autoplayTimer ∧
    (showTestimonial s x).live = s.live ∧
    (showTestimonial s x).nextHandle = s.nextHandle ∧
    (showTestimonial s x).isAutoplay = s.isAutoplay := by
  unfold showTestimonial
  split <;> exact ⟨rfl, rfl, rfl, rfl⟩

/-- `resetAutoplay` from a state whose only live interval is the tracked
one: the old interval is cleared and exactly one fresh interval runs. -/
theorem resetAutoplay_from_single (s : Carousel) (h : Nat)
    (ht : s.autoplayTimer = some h) (hl : s.live = [h]) (ha : s.isAutoplay = true) :
    (resetAutoplay s).autoplayTimer = some s.nextHandle ∧
    (resetAutoplay s).live = [s.nextHandle] ∧
    (resetAutoplay s).nextHandle = s.nextHandle + 1 := by
  unfold resetAutoplay pauseAutoplay
  rw [ht]
  dsimp only
  rw [hl]
  simp [startAutoplay, ha, List.erase_cons_head]

theorem activateOnly_congr_length (l l' : List Bool) (h : l.length = l'.length)
    (x : JsNum) : activateOnly l x = activateOnly l' x := by
  simp only [activateOnly, List.map_const', h]

/-- What a valid `goToTestimonial` does to the observable state. -/
theorem goTo_valid_spec (s : Carousel) (v : Int)
    (h0 : 0 ≤ v) (hv : v < (s.cards.length : Int)) :
    (goToTestimonial s v).currentIndex = .int v ∧
    (goToTestimonial s v).renders = s.renders ++ [.int v] ∧
    (goToTestimonial s v).cards = activateOnly s.cards (.int v) ∧
    (goToTestimonial s v).dots = activateOnly s.dots (.int v) ∧
    (goToTestimonial s v).cards.length = s.cards.length ∧
    (goToTestimonial s v).dots.length = s.dots.length := by
  unfold goToTestimonial
  rw [showTestimonial_inRange s v h0 hv]
  obtain ⟨r1, r2, r3, r4, -⟩ := resetAutoplay_proj
    { s with
      cards := activateOnly s.cards (.int v)
      dots := activateOnly s.dots (.int v)
      currentIndex := .int v
      renders := s.renders ++ [.int v] }
  refine ⟨r1, r4, r2, r3, ?_, ?_⟩
  · rw [r2]; exact length_activateOnly s.cards (JsNum.int v)
  · rw [r3]; exact length_activateOnly s.dots (JsNum.int v)

/-! ### Claim theorems -/

/-- C2: for every `N > 0` and current index `i ∈ [0, N-1]`,
`nextTestimonial` sets the index to `(i + 1) mod N` and
`previousTestimonial` sets it to `(i - 1 + N) mod N`. -/
theorem next_previous_wraparound (s : Carousel) (i : Int)
    (hcur : s.currentIndex = .int i) (h0 : 0 ≤ i)
    (hi : i < (s.cards.length : Int)) :
    (nextTestimonial s).currentIndex = .int ((i + 1) % (s.cards.length : Int)) ∧
    (previousTestimonial s).currentIndex =
      .int ((i - 1 + s.cards.length) % (s.cards.length : Int)) := by
  have hN : 0 < s.cards.length := by
    have : (0 : Int) < (s.cards.length : Int) := lt_of_le_of_lt h0 hi
    exact_mod_cast this
  exact ⟨(nextTestimonial_spec s i hcur h0 hN).1,
    (previousTestimonial_spec s i hcur h0 hN).1⟩

/-- C2 witness: with `N = 4`, `next()` from index 3 yields index 0 and
`previous()` from index 0 yields index 3. -/
theorem next_previous_wraparound_witness :
    (nextTestimonial (applyOps (initState 4 4 true) [Op.goTo 3])).currentIndex =
      .int ((3 + 1) % ((applyOps (initState 4 4 true) [Op.goTo 3]).cards.length : Int)) ∧
    (previousTestimonial (initState 4 4 true)).currentIndex =
      .int ((0 - 1 + (initState 4 4 true).cards.length) %
        ((initState 4 4 true).cards.length : Int)) ∧
    (3 + 1) % (((applyOps (initState 4 4 true) [Op.goTo 3]).cards.length : Nat) : Int) = 0 ∧
    (0 - 1 + ((initState 4 4 true).cards.length : Int)) %
      (((initState 4 4 true).cards.length : Nat) : Int) = 3 :=
  ⟨(next_previous_wraparound (applyOps (initState 4 4 true) [Op.goTo 3]) 3
      (by decide) (by decide) (by decide)).1,
   (next_previous_wraparound (initState 4 4 true) 0
      (by decide) (by decide) (by decide)).2,
   by decide, by decide⟩

/-- C3 counterexample: with `N = 3`, current index 1 and autoplay
running, `goToTestimonial 5` keeps the index and performs no render,
but it is not a complete no-op: the autoplay timer is cancelled and
restarted (the tracked interval handle changes and the old interval is
no longer scheduled), so the claim as stated is false. -/
theorem goTo_invalid_resets_timer_cex :
    (goToTestimonial (applyOps (initState 3 3 true) [Op.goTo 1]) 5).currentIndex =
      (applyOps (initState 3 3 true) [Op.goTo 1]).currentIndex ∧
    (goToTestimonial (applyOps (initState 3 3 true) [Op.goTo 1]) 5).renders =
      (applyOps (initState 3 3 true) [Op.goTo 1]).renders ∧
    (applyOps (initState 3 3 true) [Op.goTo 1]).autoplayTimer = some 2 ∧
    (goToTestimonial (applyOps (initState 3 3 true) [Op.goTo 1]) 5).autoplayTimer = some 3 ∧
    ¬ (2 ∈ (goToTestimonial (applyOps (initState 3 3 true) [Op.goTo 1]) 5).live) ∧
    goToTestimonial (applyOps (initState 3 3 true) [Op.goTo 1]) 5 ≠
      applyOps (initState 3 3 true) [Op.goTo 1] := by
  decide

/-- C3 amended: for every index `v` outside `[0, N-1]`, `goTo(v)` leaves
the index, the card/dot classes and the render trace unchanged — no
render call occurs — but it still runs `resetAutoplay`, cancelling and
restarting the autoplay timer. -/
theorem goTo_invalid_noop_except_timer (s : Carousel) (v : Int)
    (h : v < 0 ∨ (s.cards.length : Int) ≤ v) :
    goToTestimonial s v = resetAutoplay s ∧
    (goToTestimonial s v).currentIndex = s.currentIndex ∧
    (goToTestimonial s v).renders = s.renders ∧
    (goToTestimonial s v).cards = s.cards ∧
    (goToTestimonial s v).dots = s.dots := by
  have heq : goToTestimonial s v = resetAutoplay s := by
    unfold goToTestimonial
    rw [showTestimonial_outRange s v h]
  obtain ⟨r1, r2, r3, r4, -⟩ := resetAutoplay_proj s
  rw [heq]
  exact ⟨rfl, r1, r4, r2, r3⟩

/-- C3 amended witness: `goTo 5` on a three-card carousel at index 1. -/
theorem goTo_invalid_noop_except_timer_witness :
    goToTestimonial (applyOps (initState 3 3 true) [Op.goTo 1]) 5 =
      resetAutoplay (applyOps (initState 3 3 true) [Op.goTo 1]) ∧
    (goToTestimonial (applyOps (initState 3 3 true) [Op.goTo 1]) 5).currentIndex =
      (applyOps (initState 3 3 true) [Op.goTo 1]).currentIndex ∧
    (goToTestimonial (applyOps (initState 3 3 true) [Op.goTo 1]) 5).renders =
      (applyOps (initState 3 3 true) [Op.goTo 1]).renders ∧
    (goToTestimonial (applyOps (initState 3 3 true) [Op.goTo 1]) 5).cards =
      (applyOps (initState 3 3 true) [Op.goTo 1]).cards ∧
    (goToTestimonial (applyOps (initState 3 3 true) [Op.goTo 1]) 5).dots =
      (applyOps (initState 3 3 true) [Op.goTo 1]).dots :=
  goTo_invalid_noop_except_timer (applyOps (initState 3 3 true) [Op.goTo 1]) 5
    (by decide)

/-- C8: with threshold 50, a swipe of `|diff| ≤ 50` does nothing,
`diff > 50` performs exactly one `next()` and `diff < -50` exactly one
`previous()`. -/
theorem swipe_threshold_behavior (s : Carousel) (startX endX : Int) :
    (|startX - endX| ≤ 50 → handleSwipe s startX endX = s) ∧
    (50 < startX - endX → handleSwipe s startX endX = nextTestimonial s) ∧
    (startX - endX < -50 → handleSwipe s startX endX = previousTestimonial s) := by
  unfold handleSwipe
  dsimp only
  refine ⟨fun h => ?_, fun h => ?_, fun h => ?_⟩
  · rw [if_neg (not_lt.mpr h)]
  · rw [if_pos (lt_of_lt_of_le h (le_abs_self _)), if_pos (by omega)]
  · have habs : (50 : Int) < |startX - endX| :=
      lt_of_lt_of_le (by omega) (neg_le_abs _)
    rw [if_pos habs, if_neg (by omega)]

/-- C8 witness: `onSwipe(100, 40)` (diff 60) is exactly one `next()`;
`onSwipe(100, 70)` (diff 30) is a no-op. -/
theorem swipe_threshold_behavior_witness :
    handleSwipe (initState 3 3 true) 100 40 = nextTestimonial (initState 3 3 true) ∧
    handleSwipe (initState 3 3 true) 100 70 = initState 3 3 true :=
  ⟨(swipe_threshold_behavior (initState 3 3 true) 100 40).2.1 (by decide),
   (swipe_threshold_behavior (initState 3 3 true) 100 70).1 (by decide)⟩

/-- C9: for every valid index `v`, `goTo(v); goTo(v)` leaves the index
at `v`, renders `v` on both calls, and the repeated render reproduces
the same active/inactive card and dot state. -/
theorem goTo_idempotent_render (s : Carousel) (v : Int)
    (h0 : 0 ≤ v) (hv : v < (s.cards.length : Int)) :
    (goToTestimonial s v).currentIndex = .int v ∧
    (goToTestimonial (goToTestimonial s v) v).currentIndex = .int v ∧
    (goToTestimonial s v).renders = s.renders ++ [.int v] ∧
    (goToTestimonial (goToTestimonial s v) v).renders =
      (goToTestimonial s v).renders ++ [.int v] ∧
    (goToTestimonial (goToTestimonial s v) v).cards = (goToTestimonial s v).cards ∧
    (goToTestimonial (goToTestimonial s v) v).dots = (goToTestimonial s v).dots := by
  obtain ⟨a1, a2, a3, a4, a5, a6⟩ := goTo_valid_spec s v h0 hv
  have hv' : v < ((goToTestimonial s v).cards.length : Int) := by rw [a5]; exact hv
  obtain ⟨b1, b2, b3, b4, b5, b6⟩ := goTo_valid_spec (goToTestimonial s v) v h0 hv'
  refine ⟨a1, b1, a2, b2, ?_, ?_⟩
  · rw [b3, a3]
    exact activateOnly_congr_length _ _ (length_activateOnly s.cards (JsNum.int v)) (JsNum.int v)
  · rw [b4, a4]
    exact activateOnly_congr_length _ _ (length_activateOnly s.dots (JsNum.int v)) (JsNum.int v)

/-- C9 witness: `goTo(2); goTo(2)` on a three-card carousel. -/
theorem goTo_idempotent_render_witness :
    (goToTestimonial (initState 3 3 true) 2).currentIndex = .int 2 ∧
    (goToTestimonial (goToTestimonial (initState 3 3 true) 2) 2).currentIndex = .int 2 ∧
    (goToTestimonial (initState 3 3 true) 2).renders =
      (initState 3 3 true).renders ++ [.int 2] ∧
    (goToTestimonial (goToTestimonial (initState 3 3 true) 2) 2).renders =
      (goToTestimonial (initState 3 3 true) 2).renders ++ [.int 2] ∧
    (goToTestimonial (goToTestimonial (initState 3 3 true) 2) 2).cards =
      (goToTestimonial (initState 3 3 true) 2).cards ∧
    (goToTestimonial (goToTestimonial (initState 3 3 true) 2) 2).dots =
      (goToTestimonial (initState 3 3 true) 2).dots :=
  goTo_idempotent_render (initState 3 3 true) 2 (by decide) (by decide)

/-- C10: the global wrappers are no-ops with no registered instance;
`changeTestimonial d` performs `next()` when `d > 0` and `previous()`
otherwise; `currentTestimonial i` navigates to item `i - 1`, so
`currentTestimonial 1` activates item 0. -/
theorem global_wrappers_spec (c : Carousel) (d i : Int) :
    changeTestimonial none d = none ∧
    currentTestimonial none i = none ∧
    (0 < d → changeTestimonial (some c) d = some (nextTestimonial c)) ∧
    (d ≤ 0 → changeTestimonial (some c) d = some (previousTestimonial c)) ∧
    currentTestimonial (some c) i = some (goToTestimonial c (i - 1)) ∧
    (0 < c.cards.length →
      currentTestimonial (some c) 1 = some (goToTestimonial c 0) ∧
      (goToTestimonial c 0).currentIndex = .int 0 ∧
      (goToTestimonial c 0).cards.getD 0 false = true) := by
  refine ⟨rfl, rfl, fun h => ?_, fun h => ?_, rfl, fun hpos => ?_⟩
  · simp [changeTestimonial, h]
  · simp [changeTestimonial, not_lt.mpr h]
  · have hlt : (0 : Int) < (c.cards.length : Int) := by exact_mod_cast hpos
    obtain ⟨g1, -, g3, -, -, -⟩ := goTo_valid_spec c 0 le_rfl hlt
    refine ⟨by norm_num [currentTestimonial], g1, ?_⟩
    rw [g3, activateOnly_int_eq c.cards 0 le_rfl hlt]
    simpa using getD_replicate_false_set c.cards.length 0 hpos

/-- C10 witness: wrappers evaluated on a three-card carousel and on an
unregistered global. -/
theorem global_wrappers_spec_witness :
    changeTestimonial none 1 = none ∧
    currentTestimonial none 7 = none ∧
    changeTestimonial (some (initState 3 3 true)) 1 =
      some (nextTestimonial (initState 3 3 true)) ∧
    changeTestimonial (some (initState 3 3 true)) (-1) =
      some (previousTestimonial (initState 3 3 true)) ∧
    currentTestimonial (some (initState 3 3 true)) 1 =
      some (goToTestimonial (initState 3 3 true) 0) ∧
    (goToTestimonial (initState 3 3 true) 0).currentIndex = .int 0 := by
  have h1 := global_wrappers_spec (initState 3 3 true) 1 7
  have h2 := global_wrappers_spec (initState 3 3 true) (-1) 7
  obtain ⟨w1, w2, w3, -, -, w6⟩ := h1
  obtain ⟨-, -, -, v4, -, -⟩ := h2
  obtain ⟨u1, u2, -⟩ := w6 (by decide)
  exact ⟨w1, w2, w3 (by decide), v4 (by decide), u1, u2⟩

/-- C1: for every reachable state of a carousel with `N > 0` items the
current index is an integer in `[0, N-1]`, and after any
`showTestimonial` call with an in-range index exactly one card and
exactly one dot carry the `active` mark (the one at that index), all
others having been deactivated. -/
theorem carousel_index_invariant_unique_active
    (N nD : Nat) (a : Bool) (ops : List Op) (hN : 0 < N) :
    (∃ i : Int, (applyOps (initState N nD a) ops).currentIndex = .int i ∧
      0 ≤ i ∧ i < (N : Int)) ∧
    (∀ (s : Carousel) (i : Int), s.cards.length = N → s.dots.length = N →
      0 ≤ i → i < (N : Int) →
      (showTestimonial s (.int i)).cards.count true = 1 ∧
      (showTestimonial s (.int i)).dots.count true = 1 ∧
      (showTestimonial s (.int i)).cards.getD i.toNat false = true ∧
      (showTestimonial s (.int i)).dots.getD i.toNat false = true ∧
      (∀ j : Nat, j < N → j ≠ i.toNat →
        (showTestimonial s (.int i)).cards.getD j false = false ∧
        (showTestimonial s (.int i)).dots.getD j false = false)) := by
  constructor
  · obtain ⟨hinv, hlen⟩ := initState_indexInv N nD a (Nat.pos_iff_ne_zero.mp hN)
    have hrun := applyOps_indexInv ops (initState N nD a)
      (by rw [hlen]; exact Nat.pos_iff_ne_zero.mp hN) (by rw [hlen]; exact hinv)
    rw [hlen] at hrun
    exact hrun
  · intro s i hc hd h0 hi
    have hi' : i < (s.cards.length : Int) := by rw [hc]; exact hi
    have hid : i < (s.dots.length : Int) := by rw [hd]; exact hi
    have hnat : i.toNat < N := by omega
    rw [showTestimonial_inRange s i h0 hi']
    dsimp only
    rw [activateOnly_int_eq s.cards i h0 hi', activateOnly_int_eq s.dots i h0 hid,
      hc, hd]
    refine ⟨count_replicate_false_set N i.toNat hnat,
      count_replicate_false_set N i.toNat hnat,
      getD_replicate_false_set N i.toNat hnat,
      getD_replicate_false_set N i.toNat hnat,
      fun j hj hne => ⟨getD_replicate_false_set_ne N i.toNat j hj hne,
        getD_replicate_false_set_ne N i.toNat j hj hne⟩⟩

/-- C1 witness: a four-card carousel after one `next()` and one render
call at index 2. -/
theorem carousel_index_invariant_unique_active_witness :
    (∃ i : Int, (applyOps (initState 4 4 true) [Op.next]).currentIndex = .int i ∧
      0 ≤ i ∧ i < (4 : Int)) ∧
    (showTestimonial (initState 4 4 true) (.int 2)).cards.count true = 1 ∧
    (showTestimonial (initState 4 4 true) (.int 2)).dots.count true = 1 ∧
    (showTestimonial (initState 4 4 true) (.int 2)).cards.getD 2 false = true := by
  have h := carousel_index_invariant_unique_active 4 4 true [Op.next] (by decide)
  have h2 := h.2 (initState 4 4 true) 2 (by decide) (by decide) (by decide) (by decide)
  exact ⟨h.1, h2.1, h2.2.1, h2.2.2.1⟩

/-- C4 counterexample: on a freshly initialised four-card carousel the
recurring interval has handle 1; when that interval fires (its callback
is `nextTestimonial`), the firing schedule is cancelled (handle 1 is no
longer live) and a fresh interval with handle 2 replaces it — the
existing recurring schedule does NOT stay intact, so the claim as
stated is false. -/
theorem tick_resets_own_timer_cex :
    (initState 4 4 true).autoplayTimer = some 1 ∧
    (initState 4 4 true).live = [1] ∧
    (applyOp (initState 4 4 true) Op.tick).autoplayTimer = some 2 ∧
    (applyOp (initState 4 4 true) Op.tick).live = [2] ∧
    ¬ (1 ∈ (applyOp (initState 4 4 true) Op.tick).live) := by
  decide

/-- C4 amended: a timer tick is exactly a `nextTestimonial()` call: it
advances the index to `(i + 1) mod N` and re-renders it, and — because
`nextTestimonial` calls `resetAutoplay` — it also cancels the interval
it fired from and starts a fresh recurring interval in its place. -/
theorem tick_advances_and_resets_timer (s : Carousel) (i : Int) (h : Nat)
    (hcur : s.currentIndex = .int i) (h0 : 0 ≤ i) (hN : 0 < s.cards.length)
    (ht : s.autoplayTimer = some h) (hl : s.live = [h]) (ha : s.isAutoplay = true)
    (hfresh : h ≠ s.nextHandle) :
    applyOp s Op.tick = nextTestimonial s ∧
    (applyOp s Op.tick).currentIndex = .int ((i + 1) % (s.cards.length : Int)) ∧
    (applyOp s Op.tick).renders = s.renders ++ [.int ((i + 1) % (s.cards.length : Int))] ∧
    (applyOp s Op.tick).autoplayTimer = some s.nextHandle ∧
    (applyOp s Op.tick).live = [s.nextHandle] ∧
    ¬ (h ∈ (applyOp s Op.tick).live) := by
  obtain ⟨hidx, hrend⟩ := nextTestimonial_spec s i hcur h0 hN
  have happ : applyOp s Op.tick = nextTestimonial s := rfl
  obtain ⟨hmod, hlo, hhi⟩ := modLen_nonneg (i + 1) s.cards.length (by omega) hN
  have hshowTimer := showTestimonial_ghost_proj s
    (JsNum.modLen (.int (i + 1)) s.cards.length)
  obtain ⟨g1, g2, g3, g4⟩ := hshowTimer
  have hreset := resetAutoplay_from_single
    (showTestimonial s (JsNum.modLen (.int (i + 1)) s.cards.length)) h
    (g1.trans ht) (g2.trans hl) (g4.trans ha)
  rw [g3] at hreset
  have hnext_eq : nextTestimonial s =
      resetAutoplay (showTestimonial s (JsNum.modLen (.int (i + 1)) s.cards.length)) := by
    unfold nextTestimonial
    rw [hcur]
    rfl
  refine ⟨happ, by rw [happ]; exact hidx, by rw [happ]; exact hrend, ?_, ?_, ?_⟩
  · rw [happ, hnext_eq]; exact hreset.1
  · rw [happ, hnext_eq]; exact hreset.2.1
  · rw [happ, hnext_eq, hreset.2.1]
    simp [hfresh]

/-- C4 amended witness: the tick on a freshly initialised four-card
carousel. -/
theorem tick_advances_and_resets_timer_witness :
    applyOp (initState 4 4 true) Op.tick = nextTestimonial (initState 4 4 true) ∧
    (applyOp (initState 4 4 true) Op.tick).currentIndex =
      .int ((0 + 1) % ((initState 4 4 true).cards.length : Int)) ∧
    (applyOp (initState 4 4 true) Op.tick).renders =
      (initState 4 4 true).renders ++
        [.int ((0 + 1) % ((initState 4 4 true).cards.length : Int))] ∧
    (applyOp (initState 4 4 true) Op.tick).autoplayTimer =
      some (initState 4 4 true).nextHandle ∧
    (applyOp (initState 4 4 true) Op.tick).live = [(initState 4 4 true).nextHandle] ∧
    ¬ (1 ∈ (applyOp (initState 4 4 true) Op.tick).live) :=
  tick_advances_and_resets_timer (initState 4 4 true) 0 1
    (by decide) (by decide) (by decide) (by decide) (by decide) (by decide) (by decide)

/-- C5: with autoplay enabled and `N = 5`, two manual `next()` calls do
leave exactly one live interval, but the cancel-before-start discipline
is broken by the `mouseleave` path: `startAutoplay` creates an interval
without cancelling the old one, so after hover-enter (pause), `next()`
(which restarts autoplay) and hover-leave (start), TWO intervals are
live; the first one's handle has been overwritten, so a further
`pauseAutoplay` can never clear it — the at-most-one-live-timer
invariant fails on the code (and no `teardown` operation exists). -/
theorem hover_resume_leaks_second_timer :
    (applyOps (initState 5 5 true) [Op.next, Op.next]).live = [3] ∧
    (applyOps (initState 5 5 true) [Op.hoverIn, Op.next, Op.hoverOut]).live = [2, 3] ∧
    (applyOps (initState 5 5 true) [Op.hoverIn, Op.next, Op.hoverOut]).autoplayTimer =
      some 3 ∧
    (applyOps (initState 5 5 true) [Op.hoverIn, Op.next, Op.hoverOut, Op.hoverIn]).live =
      [2] := by
  decide

/-- C6 counterexample: with a single card and autoplay enabled by
configuration, `startAutoplay` runs in `init` (it checks only the
autoplay flag, never `N > 1`), so a live interval exists right after
initialisation; and one `next()` passes `showTestimonial`'s range guard
with index `(0 + 1) % 1 = 0`, so render runs a second time — both the
"autoplay never starts" and the "render never invoked more than once"
parts of the claim are false on the code. -/
theorem single_item_autoplay_and_rerender_cex :
    (initState 1 1 true).autoplayTimer = some 1 ∧
    (initState 1 1 true).live = [1] ∧
    (initState 1 1 true).renders = [.int 0] ∧
    (applyOp (initState 1 1 true) Op.next).renders = [.int 0, .int 0] := by
  decide

/-- C6 amended: with `N = 1`, `next()`, `previous()` and a swipe of any
magnitude leave the index at 0 — but each accepted navigation
re-invokes render with index 0 (appending to the render trace), and
autoplay does start when enabled, as `startAutoplay` never checks the
item count. -/
theorem single_item_index_inert (s : Carousel) (startX endX : Int)
    (h1 : s.cards.length = 1) (hcur : s.currentIndex = .int 0) :
    (nextTestimonial s).currentIndex = .int 0 ∧
    (previousTestimonial s).currentIndex = .int 0 ∧
    (handleSwipe s startX endX).currentIndex = .int 0 ∧
    (nextTestimonial s).renders = s.renders ++ [.int 0] ∧
    (initState 1 1 true).autoplayTimer = some 1 := by
  have hN : 0 < s.cards.length := by omega
  have hnext : (nextTestimonial s).currentIndex = .int 0 := by
    have := (nextTestimonial_spec s 0 hcur le_rfl hN).1
    rw [this, h1]
    norm_num
  have hprev : (previousTestimonial s).currentIndex = .int 0 := by
    have := (previousTestimonial_spec s 0 hcur le_rfl hN).1
    rw [this, h1]
    norm_num
  have hrend : (nextTestimonial s).renders = s.renders ++ [.int 0] := by
    have := (nextTestimonial_spec s 0 hcur le_rfl hN).2
    rw [this, h1]
    norm_num
  refine ⟨hnext, hprev, ?_, hrend, by decide⟩
  unfold handleSwipe
  dsimp only
  split
  · split
    · exact hnext
    · exact hprev
  · exact hcur

/-- C6 amended witness: the single-card carousel with a hard swipe. -/
theorem single_item_index_inert_witness :
    (nextTestimonial (initState 1 1 true)).currentIndex = .int 0 ∧
    (previousTestimonial (initState 1 1 true)).currentIndex = .int 0 ∧
    (handleSwipe (initState 1 1 true) 500 0).currentIndex = .int 0 ∧
    (nextTestimonial (initState 1 1 true)).renders =
      (initState 1 1 true).renders ++ [.int 0] ∧
    (initState 1 1 true).autoplayTimer = some 1 :=
  single_item_index_inert (initState 1 1 true) 500 0 (by decide) (by decide)

/-- C7: the claim says a zero-item controller is permanently inert, and
`init` is indeed a no-op — but `nextTestimonial` on the registered
instance is not: `(0 + 1) % 0` is `NaN`, which passes the range guard
of `showTestimonial` (both `NaN < 0` and `NaN >= 0` are false), so the
render section runs, `currentIndex` becomes `NaN`, and `resetAutoplay`
then creates a live autoplay interval.  The code contradicts the
claimed inertness. -/
theorem zero_items_next_creates_timer_and_nan :
    initState 0 0 true = mkCarousel 0 0 true ∧
    (initState 0 0 true).autoplayTimer = none ∧
    (initState 0 0 true).renders = [] ∧
    (nextTestimonial (initState 0 0 true)).currentIndex = JsNum.nan ∧
    (nextTestimonial (initState 0 0 true)).autoplayTimer = some 1 ∧
    (nextTestimonial (initState 0 0 true)).live = [1] ∧
    (nextTestimonial (initState 0 0 true)).renders = [JsNum.nan] := by
  decide
